import Mathlib

/-!
Verification of the analytics dashboard in
`pragyan-super30-webanalytics.py` against its specification.

The Python source is shallowly embedded: every view handler becomes a pure
Lean function from its inputs (user input, the HTTP outcome delivered by the
network) to the visible UI events it produces.  Floating point values drawn
or formatted by the program are modelled as rationals; the random source of
`numpy.random.uniform` is modelled as an explicit stream of draws in `[0, 1)`.
-/

set_option maxRecDepth 4000

/-! ### Decimal rendering helpers (Python number formatting) -/

/-- The decimal digit characters, `0` ↦ `0x30` and so on. -/
def digitCh (d : Nat) : Char := Char.ofNat (48 + d)

/-- Decimal digits of `n`, least significant first; `fuel` bounds the
recursion (any `fuel ≥ n` is enough). -/
def digitsRev : Nat → Nat → List Nat
  | 0, _ => []
  | fuel + 1, n => if n = 0 then [] else n % 10 :: digitsRev fuel (n / 10)

/-- Decimal digits of `n`, most significant first (`0` renders as `0`). -/
def natChars (n : Nat) : List Char :=
  if n = 0 then ['0'] else ((digitsRev n n).reverse).map digitCh

/-- Render a natural number the way Python `str` does. -/
def natStr (n : Nat) : String := ⟨natChars n⟩

/-- Render an integer the way Python `str` does. -/
def intStr (n : Int) : String :=
  if n < 0 then "-" ++ natStr n.natAbs else natStr n.natAbs

/-- Zero-pad to two characters: the behaviour of `strftime` codes `%m`, `%d`. -/
def pad2 (n : Nat) : String :=
  if n < 10 then "0" ++ natStr n else natStr n

/-- Insert thousands separators into a digit list, as Python format spec `,`
does: groups of three counted from the right. -/
def commaGroup (ds : List Char) : List Char :=
  let r := ds.reverse
  ((List.range r.length).map (fun i =>
    if i % 3 = 0 ∧ i ≠ 0 then [',', r.getD i ' '] else [r.getD i ' '])).flatten.reverse

/-- Python `format(n, ",")` for an integer `n`. -/
def commaFmtInt (n : Int) : String :=
  (if n < 0 then "-" else "") ++ ⟨commaGroup (natChars n.natAbs)⟩

/-- The apostrophe character, kept out of string literals. -/
def quoteCh : Char := Char.ofNat 39

/-- Wrap a string in single quotes, as several f-strings in the source do. -/
def squote (s : String) : String :=
  String.singleton quoteCh ++ s ++ String.singleton quoteCh

namespace Traffic

/-! ### Simulated NYC road-traffic view

Embedding of `generate_simulated_traffic_data` and the aggregate
computations of `display_road_traffic_analytics`.  `np.random.uniform(a, b)`
returns `a + u * (b - a)` for a draw `u ∈ [0, 1)`; the stream `rng` supplies
the draws in the order the source consumes them (four per record, row-major
over the latitude × longitude grid). -/

def LAT_MIN : ℚ := 40.70
def LAT_MAX : ℚ := 40.80
def LON_MIN : ℚ := -74.02
def LON_MAX : ℚ := -73.93

/-- Embeds `np.linspace a b n`: `n` evenly spaced points from `a` to `b` inclusive. -/
def linspace (a b : ℚ) (n : Nat) : List ℚ :=
  (List.range n).map (fun i => a + ((b - a) * i) / (n - 1))

/-- One row of the generated DataFrame. -/
structure TrafficRecord where
  lat : ℚ
  lon : ℚ
  currentSpeed : ℚ
  freeFlowSpeed : ℚ
  jamFactor : ℚ
  confidence : ℚ
  deriving DecidableEq

/-- Embeds `np.random.uniform lo hi` applied to a unit-interval draw `u`. -/
def uniform (lo hi u : ℚ) : ℚ := lo + u * (hi - lo)

/-- Embeds `generate_simulated_traffic_data`: a 15 × 15 grid of records, each using
four fresh draws from the stream. -/
def generate_simulated_traffic_data (rng : Nat → ℚ) : List TrafficRecord :=
  (List.range 15).flatMap (fun i =>
    (List.range 15).map (fun j =>
      let k := 4 * (15 * i + j)
      { lat := (linspace LAT_MIN LAT_MAX 15).getD i 0
        lon := (linspace LON_MIN LON_MAX 15).getD j 0
        currentSpeed := uniform 10 60 (rng k)
        freeFlowSpeed := uniform 40 70 (rng (k + 1))
        jamFactor := uniform 0 10 (rng (k + 2))
        confidence := uniform (1/2) 1 (rng (k + 3)) }))

/-- Embeds the column `df["jamFactor"]`. -/
def jamFactors (l : List TrafficRecord) : List ℚ :=
  l.map TrafficRecord.jamFactor

/-- pandas `Series.mean()`: sum divided by length. -/
def listMean (l : List ℚ) : ℚ := l.sum / l.length

/-- pandas `Series.max()` on a possibly empty column (0 for empty). -/
def listMax : List ℚ → ℚ
  | [] => 0
  | x :: xs => xs.foldl max x

/-- Embeds `avg_jam` of `display_road_traffic_analytics`. -/
def avg_jam (rng : Nat → ℚ) : ℚ := listMean (jamFactors (generate_simulated_traffic_data rng))

/-- Embeds `max_jam` of `display_road_traffic_analytics`. -/
def max_jam (rng : Nat → ℚ) : ℚ := listMax (jamFactors (generate_simulated_traffic_data rng))

end Traffic

namespace Wiki

/-! ### Wikipedia pageview view

Embedding of `fetch_wikipedia_pageviews` and the button branch of
`display_wikipedia_analytics`.  The HTTP layer is modelled by an explicit
`HttpResult` argument describing what the single `requests.get` call would
deliver; the streamlit calls become fields of an event record. -/

/-- Calendar date as used by `datetime.date` (comparison is lexicographic,
`strftime` renders the components). -/
structure Date where
  year : Nat
  month : Nat
  day : Nat
  deriving DecidableEq

/-- Python `<` on dates (valid dates compare lexicographically). -/
def dateLtB (a b : Date) : Bool :=
  a.year < b.year ||
    (a.year == b.year && (a.month < b.month || (a.month == b.month && a.day < b.day)))

/-- Embeds `d.strftime("%Y%m%d")`.  On the glibc platforms CPython targets, `%Y`
does not zero-pad below four digits; the dashboard only handles four-digit
years, which the theorems make explicit. -/
def strftimeYmd (d : Date) : String :=
  natStr d.year ++ pad2 d.month ++ pad2 d.day

/-- Python `str.split(sep)` for a one-character separator: the result is
always nonempty and keeps empty pieces. -/
def pySplitCh (sep : Char) : List Char → List (List Char)
  | [] => [[]]
  | c :: rest =>
    if c = sep then [] :: pySplitCh sep rest
    else
      match pySplitCh sep rest with
      | g :: gs => (c :: g) :: gs
      | [] => [[c]]

/-- Embeds `article_input.split("/")[-1]` (`split` never returns an empty list, so
index `-1` is its last element). -/
def lastSegment (s : String) : String :=
  ⟨(pySplitCh '/' s.toList).getLastD []⟩

/-- Does `sub` occur as a contiguous substring, as Python `in` on `str`? -/
def containsSub (sub : List Char) : List Char → Bool
  | [] => sub.isEmpty
  | c :: rest => sub.isPrefixOf (c :: rest) || containsSub sub rest

/-- Python `sub in s` for strings. -/
def strContains (s sub : String) : Bool := containsSub sub.toList s.toList

/-- Embeds `str.replace(a, b)` for one-character arguments. -/
def pyReplaceChar (s : String) (a b : Char) : String :=
  ⟨s.toList.map (fun c => if c = a then b else c)⟩

/-- Is `c` one of the hexadecimal digit characters `urllib` accepts? -/
def isHexDigitCh (c : Char) : Bool :=
  ('0' ≤ c && c ≤ '9') || ('a' ≤ c && c ≤ 'f') || ('A' ≤ c && c ≤ 'F')

/-- Value of a hexadecimal digit character. -/
def hexVal (c : Char) : Nat :=
  if c ≤ '9' then c.toNat - 48 else if 'a' ≤ c then c.toNat - 87 else c.toNat - 55

/-- UTF-8 encoding of one scalar value. -/
def utf8EncodeChar (c : Char) : List Nat :=
  let n := c.toNat
  if n < 0x80 then [n]
  else if n < 0x800 then [0xC0 + n / 64, 0x80 + n % 64]
  else if n < 0x10000 then [0xE0 + n / 4096, 0x80 + (n / 64) % 64, 0x80 + n % 64]
  else [0xF0 + n / 262144, 0x80 + (n / 4096) % 64, 0x80 + (n / 64) % 64, 0x80 + n % 64]

/-- The byte stream `urllib.parse.unquote` decodes: ordinary characters
contribute their UTF-8 bytes, a `%` followed by two hex digits contributes
the escaped byte, and a `%` not starting a valid escape stays literal. -/
def percentBytes : List Char → List Nat
  | [] => []
  | '%' :: h1 :: h2 :: rest =>
    if isHexDigitCh h1 && isHexDigitCh h2 then
      (16 * hexVal h1 + hexVal h2) :: percentBytes rest
    else utf8EncodeChar '%' ++ percentBytes (h1 :: h2 :: rest)
  | c :: rest => utf8EncodeChar c ++ percentBytes rest

/-- U+FFFD, the replacement character used by `errors="replace"`. -/
def repChar : Char := Char.ofNat 0xFFFD

/-- Is `b` a UTF-8 continuation byte? -/
def isCont (b : Nat) : Bool := 0x80 ≤ b && b < 0xC0

/-- Strict UTF-8 decoding with replacement on error, as
`bytes.decode("utf-8", errors="replace")` (malformed input consumes the
offending lead byte and emits U+FFFD; the exact replacement count on exotic
malformed runs is approximated, no claim exercises those). -/
def utf8DecodeAux : Nat → List Nat → List Char
  | 0, _ => []
  | _ + 1, [] => []
  | fuel + 1, b :: rest =>
    if b < 0x80 then Char.ofNat b :: utf8DecodeAux fuel rest
    else if b < 0xC2 then repChar :: utf8DecodeAux fuel rest
    else if b < 0xE0 then
      match rest with
      | c1 :: rest2 =>
        if isCont c1 then
          Char.ofNat ((b - 0xC0) * 64 + (c1 - 0x80)) :: utf8DecodeAux fuel rest2
        else repChar :: utf8DecodeAux fuel rest
      | [] => [repChar]
    else if b < 0xF0 then
      match rest with
      | c1 :: c2 :: rest2 =>
        if isCont c1 && isCont c2 && !(b == 0xE0 && c1 < 0xA0) && !(b == 0xED && 0xA0 ≤ c1) then
          Char.ofNat ((b - 0xE0) * 4096 + (c1 - 0x80) * 64 + (c2 - 0x80)) ::
            utf8DecodeAux fuel rest2
        else repChar :: utf8DecodeAux fuel rest
      | _ => repChar :: utf8DecodeAux fuel rest
    else if b < 0xF5 then
      match rest with
      | c1 :: c2 :: c3 :: rest2 =>
        if isCont c1 && isCont c2 && isCont c3 &&
            !(b == 0xF0 && c1 < 0x90) && !(b == 0xF4 && 0x90 ≤ c1) then
          Char.ofNat ((b - 0xF0) * 262144 + (c1 - 0x80) * 4096 + (c2 - 0x80) * 64 + (c3 - 0x80)) ::
            utf8DecodeAux fuel rest2
        else repChar :: utf8DecodeAux fuel rest
      | _ => repChar :: utf8DecodeAux fuel rest
    else repChar :: utf8DecodeAux fuel rest

/-- Run the decoder (one unit of fuel per byte is always enough, every step
consumes at least one byte). -/
def utf8DecodeReplace (l : List Nat) : List Char := utf8DecodeAux l.length l

/-- Embeds `urllib.parse.unquote`. -/
def pyUnquote (s : String) : String :=
  ⟨utf8DecodeReplace (percentBytes s.toList)⟩

/-- The Wikipedia marker checked by the view. -/
def wikiMarker : String := "en.wikipedia.org/wiki/"

/-- The URL-to-title normalization of `display_wikipedia_analytics`:
`unquote(article_input.split("/")[-1]).replace("_", " ")` when the input
contains the marker, the input unchanged otherwise. -/
def deriveTitle (input : String) : String :=
  if strContains input wikiMarker then
    pyReplaceChar (pyUnquote (lastSegment input)) '_' ' '
  else input

/-- Fixed front part of the REST URL built by `fetch_wikipedia_pageviews`. -/
def wikiBase : String :=
  "https://wikimedia.org/api/rest_v1/metrics/pageviews/per-article/en.wikipedia/all-access/user/"

/-- The request URL of `fetch_wikipedia_pageviews`. -/
def fetch_url (article : String) (s e : Date) : String :=
  wikiBase ++ pyReplaceChar article ' ' '_' ++ "/daily/" ++
    strftimeYmd s ++ "/" ++ strftimeYmd e

/-- One element of the `items` array after the reshape into
`{date, pageviews}` (the `YYYYMMDD00` timestamp parsed to a date). -/
structure PageItem where
  date : Date
  pageviews : Int
  deriving DecidableEq

/-- Body of a delivered HTTP response: a JSON object with an `items` key, one
without it, or a body whose processing raises (bad JSON, bad timestamps). -/
inductive HttpBody where
  | items (l : List PageItem)
  | noItems
  | invalid (e : String)
  deriving DecidableEq

/-- What the single `requests.get` delivers: a response with a status code
(`errText` is the text of the `HTTPError` that `raise_for_status` raises for
4xx/5xx statuses), or a `requests.RequestException` before any response. -/
inductive HttpResult where
  | response (status : Nat) (errText : String) (body : HttpBody)
  | netError (e : String)
  deriving DecidableEq

/-- Observable outcome of `fetch_wikipedia_pageviews`: the `st.error` texts
it emits and the returned DataFrame (`none` for Python `None`). -/
structure FetchOutput where
  errors : List String
  result : Option (List PageItem)
  deriving DecidableEq

/-- The 404 message `fetch_wikipedia_pageviews` emits. -/
def notFoundMsg (article : String) : String :=
  "Article " ++ squote article ++ " not found on Wikipedia."

/-- The message emitted for a `requests.RequestException`. -/
def transportMsg (e : String) : String := "API request failed: " ++ e

/-- The message emitted when processing the body raises. -/
def processingMsg (e : String) : String := "Error processing data: " ++ e

/-- Embeds `fetch_wikipedia_pageviews`: 404 first, then `raise_for_status` (any
4xx/5xx), then the `items` check. -/
def fetch_wikipedia_pageviews (article : String) (http : HttpResult) : FetchOutput :=
  match http with
  | .netError m => { errors := [transportMsg m], result := none }
  | .response status errText body =>
    if status = 404 then { errors := [notFoundMsg article], result := none }
    else if 400 ≤ status ∧ status < 600 then
      { errors := [transportMsg errText], result := none }
    else
      match body with
      | .items l => { errors := [], result := some l }
      | .noItems => { errors := [], result := none }
      | .invalid e2 => { errors := [processingMsg e2], result := none }

/-- The streamlit events the button branch of `display_wikipedia_analytics`
produces; `fetchCalled` records whether `fetch_wikipedia_pageviews` (and so
the network call) is reached. -/
structure WikiEvents where
  warnings : List String
  errors : List String
  successes : List String
  fetchCalled : Bool
  chartShown : Bool
  deriving DecidableEq

/-- The message of the final `else` branch of the view. -/
def noDataMsg (title : String) : String :=
  "No data available for " ++ squote title ++ "."

/-- The button branch of `display_wikipedia_analytics`. -/
def display_wikipedia_analytics (article_input : String) (start_date end_date : Date)
    (http : HttpResult) : WikiEvents :=
  if article_input = "" then
    { warnings := ["Please enter an article title or URL."], errors := [],
      successes := [], fetchCalled := false, chartShown := false }
  else
    let article_title := deriveTitle article_input
    if dateLtB end_date start_date then
      { warnings := ["Start date cannot be after end date."], errors := [],
        successes := [], fetchCalled := false, chartShown := false }
    else
      let f := fetch_wikipedia_pageviews article_title http
      match f.result with
      | some df =>
        if !df.isEmpty then
          { warnings := [], errors := f.errors,
            successes := ["Data retrieved for " ++ squote article_title ++ "!"],
            fetchCalled := true, chartShown := true }
        else
          { warnings := [], errors := f.errors ++ [noDataMsg article_title],
            successes := [], fetchCalled := true, chartShown := false }
      | none =>
        { warnings := [], errors := f.errors ++ [noDataMsg article_title],
          successes := [], fetchCalled := true, chartShown := false }

end Wiki

namespace Seo

/-! ### Website SEO view

Embedding of the button branch of `display_website_seo_analytics`.  The JSON
body delivered by `fetch_website_seo_data` is modelled as an association
list over the keys the code reads; the nested `data` object becomes a record
of optional fields (Python floats as rationals).  The f-string evaluation in
the success branch can raise (`format("N/A", ",")` is a `ValueError`), so
the rendered success view is an `Except`. -/

/-- One element of the `traffic_country` array. -/
structure CountryRow where
  country_code : String
  country_name : String
  traffic_percentage : ℚ
  deriving DecidableEq

/-- The nested `data` mapping, with exactly the fields the code reads; a
`none` field is an absent key. -/
structure SeoMetrics where
  global_rank : Option Int
  visits : Option Int
  bounce_rate : Option ℚ
  avg_session_duration : Option ℚ
  traffic_country : Option (List CountryRow)
  traffic_device_split : Option (List (String × ℚ))
  traffic_sources : Option (List (String × ℚ))
  deriving DecidableEq

/-- The metrics mapping with no keys. -/
def emptyMetrics : SeoMetrics :=
  { global_rank := none, visits := none, bounce_rate := none,
    avg_session_duration := none, traffic_country := none,
    traffic_device_split := none, traffic_sources := none }

/-- A top-level JSON value of the response object. -/
inductive JsonTop where
  | jbool (b : Bool)
  | jint (n : Int)
  | jstr (s : String)
  | jdict (m : SeoMetrics)
  deriving DecidableEq

/-- The response object: an association list of keys to values. -/
abbrev SeoDict := List (String × JsonTop)

/-- Python truthiness of a metrics mapping (a dict is truthy iff nonempty,
and the record models exactly the keys present). -/
def metricsTruthy (m : SeoMetrics) : Bool :=
  m.global_rank.isSome || m.visits.isSome || m.bounce_rate.isSome ||
    m.avg_session_duration.isSome || m.traffic_country.isSome ||
    m.traffic_device_split.isSome || m.traffic_sources.isSome

/-- Python truthiness of a top-level value. -/
def pyTruthy : JsonTop → Bool
  | .jbool b => b
  | .jint n => n != 0
  | .jstr s => s ≠ ""
  | .jdict m => metricsTruthy m

/-- Embeds `d.get(k, dflt)`. -/
def dictGet (d : SeoDict) (k : String) (dflt : JsonTop) : JsonTop :=
  (List.lookup k d).getD dflt

/-- How an f-string renders a top-level value (`str`); the repr of a dict is
abstracted, no claim stringifies one. -/
def jsonToStr : JsonTop → String
  | .jstr s => s
  | .jbool b => if b then "True" else "False"
  | .jint n => intStr n
  | .jdict _ => "\x7b...\x7d"

/-- Round-half-even, the rounding of Python `format`, computed on the
numerator and denominator (the fractional part `r` satisfies
`r = rnum / q.den` with `0 ≤ rnum < q.den`, so comparing `r` to `1/2`
is comparing `2 * rnum` to `q.den`). -/
def roundHalfEven (q : ℚ) : Int :=
  let f := Int.fdiv q.num q.den
  let rnum := q.num - f * q.den
  if 2 * rnum < q.den then f
  else if (q.den : Int) < 2 * rnum then f + 1
  else if f % 2 = 0 then f else f + 1

/-- Python `format(x, ".1%")`: the value times 100, to one decimal, with a
percent sign. -/
def fmtPercent1 (q : ℚ) : String :=
  let m := roundHalfEven (q * 1000)
  let a := m.natAbs
  (if m < 0 then "-" else "") ++ natStr (a / 10) ++ "." ++ natStr (a % 10) ++ "%"

/-- Python `int(x)`: truncation toward zero. -/
def pyInt (q : ℚ) : Int := Int.tdiv q.num q.den

/-- The `ValueError` text raised by formatting a `str` with the `,` spec. -/
def commaValueError : String :=
  "ValueError: Cannot specify " ++ squote "," ++ " with " ++ squote "s" ++ "."

/-- Value of the Global Rank tile,
`f"#\x7bmetrics.get('global_rank', 'N/A'):,\x7d"`: comma-grouping an absent
field applies the `,` spec to the fallback string and raises. -/
def globalRankTile (m : SeoMetrics) : Except String String :=
  match m.global_rank with
  | some n => .ok ("#" ++ commaFmtInt n)
  | none => .error commaValueError

/-- Value of the Monthly Visits tile, `f"\x7bmetrics.get('visits', 0):,\x7d"`. -/
def visitsTile (m : SeoMetrics) : String :=
  commaFmtInt (m.visits.getD 0)

/-- Value of the Bounce Rate tile. -/
def bounceRateTile (m : SeoMetrics) : String :=
  match m.bounce_rate with
  | some q => fmtPercent1 q
  | none => "N/A"

/-- Value of the Avg. Session tile: `divmod(int(duration), 60)` rendered as
`f"\x7bmins\x7dm \x7bsecs\x7ds"`, or `"N/A"` when absent. -/
def avgSessionTile (m : SeoMetrics) : String :=
  match m.avg_session_duration with
  | some q =>
    let t := pyInt q
    intStr (Int.fdiv t 60) ++ "m " ++ intStr (Int.fmod t 60) ++ "s"
  | none => "N/A"

/-- What the success branch renders when no exception is raised: the four
KPI tiles in order, the chart titles drawn, and the `st.info` placeholders. -/
structure SuccessRender where
  tiles : List (String × String)
  charts : List String
  infos : List String
  deriving DecidableEq

deriving instance DecidableEq for Except

/-- The success branch of the view for a metrics mapping `m`.  The tiles are
rendered in source order, so the `ValueError` of an absent `global_rank`
aborts the whole branch. -/
def renderSuccess (m : SeoMetrics) : Except String SuccessRender :=
  match globalRankTile m with
  | .error e => .error e
  | .ok rankText =>
    let country := m.traffic_country.getD []
    let device := m.traffic_device_split.getD []
    let sources := m.traffic_sources.getD []
    .ok
      { tiles :=
          [("Global Rank", rankText), ("Monthly Visits", visitsTile m),
            ("Bounce Rate", bounceRateTile m), ("Avg. Session", avgSessionTile m)]
        charts :=
          (if !country.isEmpty then ["Top Countries by Traffic"] else []) ++
            (if !device.isEmpty then ["Traffic Distribution by Device"] else []) ++
            (if !sources.isEmpty then ["Traffic Distribution by Source"] else [])
        infos :=
          (if country.isEmpty then ["No geographic data available."] else []) ++
            (if device.isEmpty then ["No device data available."] else []) ++
            (if sources.isEmpty then ["No traffic source data available."] else []) }

/-- Observable outcome of the button branch of
`display_website_seo_analytics`. -/
inductive SeoOutcome where
  | warned (msg : String)
  | fetchFailed (msg : String)
  | apiError (msg : String)
  | success (render : Except String SuccessRender)
  deriving DecidableEq

/-- Embeds `metrics = data.get('data', \x7b\x7d)` followed by the success-branch
rendering; a non-dict under the `data` key would raise on the first
`metrics.get` (`AttributeError`). -/
def renderSuccessOf (d : SeoDict) : Except String SuccessRender :=
  match dictGet d "data" (.jdict emptyMetrics) with
  | .jdict m => renderSuccess m
  | _ => .error "AttributeError: get"

/-- The button branch of `display_website_seo_analytics`, given the decoded
JSON body (`none` when `fetch_website_seo_data` returned `None`). -/
def display_website_seo_analytics (api_key domain : String)
    (data : Option SeoDict) : SeoOutcome :=
  if api_key = "" ∨ domain = "" then .warned "API key and domain are required."
  else
    match data with
    | none => .fetchFailed "Failed to retrieve data. Check API key and domain."
    | some d =>
      if !d.isEmpty && pyTruthy (dictGet d "success" (.jbool false)) then
        .success (renderSuccessOf d)
      else if !d.isEmpty then
        .apiError ("API error: " ++ jsonToStr (dictGet d "message" (.jstr "Unknown error")))
      else .fetchFailed "Failed to retrieve data. Check API key and domain."

end Seo

section SanityChecks

example : natStr 1234 = "1234" := by decide
example : commaFmtInt 1234567 = "1,234,567" := by decide
example : commaFmtInt 0 = "0" := by decide
example : commaFmtInt (-1234) = "-1,234" := by decide
example : pad2 7 = "07" := by decide
example : (Traffic.generate_simulated_traffic_data (fun _ => 1/2)).length = 225 := by decide

example :
    Wiki.deriveTitle "https://en.wikipedia.org/wiki/Streamlit_(company)" = "Streamlit (company)" := by
  decide

example :
    Wiki.deriveTitle "https://en.wikipedia.org/wiki/Streamlit_%28company%29" =
      "Streamlit (company)" := by
  decide

example : Wiki.deriveTitle "Streamlit" = "Streamlit" := by decide

example : Wiki.strftimeYmd ⟨2024, 3, 7⟩ = "20240307" := by decide

example : Wiki.pyUnquote "caf%C3%A9" = "café" := by decide

example :
    Seo.avgSessionTile { Seo.emptyMetrics with avg_session_duration := some 125 } = "2m 5s" := by
  decide

example : Seo.avgSessionTile Seo.emptyMetrics = "N/A" := by decide

example : Seo.visitsTile Seo.emptyMetrics = "0" := by decide

example : Seo.globalRankTile Seo.emptyMetrics = .error Seo.commaValueError := by decide

example :
    Seo.display_website_seo_analytics "k" "streamlit.io"
      (some [("success", .jbool false), ("message", .jstr "Invalid key")]) =
      .apiError "API error: Invalid key" := by
  decide

example :
    Seo.display_website_seo_analytics "k" "streamlit.io" (some []) =
      .fetchFailed "Failed to retrieve data. Check API key and domain." := by
  decide

example : Seo.fmtPercent1 (425/1000) = "42.5%" := by with_unfolding_all decide

end SanityChecks

/-! ### Helper lemmas -/

theorem digitsRev_zero (fuel : Nat) : digitsRev fuel 0 = [] := by
  cases fuel <;> simp [digitsRev]

theorem digitsRev_len1 (n : Nat) (h1 : 1 ≤ n) (h2 : n < 10) :
    ∀ fuel, 1 ≤ fuel → (digitsRev fuel n).length = 1 := by
  intro fuel hf
  obtain ⟨f, rfl⟩ : ∃ f, fuel = f + 1 := ⟨fuel - 1, by omega⟩
  have h0 : ¬ n = 0 := by omega
  have hd : n / 10 = 0 := by omega
  simp [digitsRev, h0, hd, digitsRev_zero]

theorem digitsRev_len2 (n : Nat) (h1 : 10 ≤ n) (h2 : n < 100) :
    ∀ fuel, 2 ≤ fuel → (digitsRev fuel n).length = 2 := by
  intro fuel hf
  obtain ⟨f, rfl⟩ : ∃ f, fuel = f + 2 := ⟨fuel - 2, by omega⟩
  have h0 : ¬ n = 0 := by omega
  have h10 : ¬ n / 10 = 0 := by omega
  have hd : n / 10 / 10 = 0 := by omega
  simp [digitsRev, h0, h10, hd, digitsRev_zero]

theorem digitsRev_len4 (n : Nat) (h1 : 1000 ≤ n) (h2 : n < 10000) :
    ∀ fuel, 4 ≤ fuel → (digitsRev fuel n).length = 4 := by
  intro fuel hf
  obtain ⟨f, rfl⟩ : ∃ f, fuel = f + 4 := ⟨fuel - 4, by omega⟩
  have h0 : ¬ n = 0 := by omega
  have ha : ¬ n / 10 = 0 := by omega
  have hb : ¬ n / 10 / 10 = 0 := by omega
  have hc : ¬ n / 10 / 10 / 10 = 0 := by omega
  have hd : n / 10 / 10 / 10 / 10 = 0 := by omega
  simp [digitsRev, h0, ha, hb, hc, hd, digitsRev_zero]

theorem natStr_length1 (n : Nat) (h : n < 10) : (natStr n).length = 1 := by
  by_cases h0 : n = 0
  · simp [natStr, natChars, h0, String.length]
  · simp only [natStr, natChars, h0, if_false, String.length_mk, List.length_map,
      List.length_reverse]
    exact digitsRev_len1 n (by omega) h n (by omega)

theorem natStr_length2 (n : Nat) (h1 : 10 ≤ n) (h2 : n < 100) : (natStr n).length = 2 := by
  simp only [natStr, natChars, show ¬ n = 0 by omega, if_false, String.length_mk,
    List.length_map, List.length_reverse]
  exact digitsRev_len2 n h1 h2 n (by omega)

theorem natStr_length4 (n : Nat) (h1 : 1000 ≤ n) (h2 : n < 10000) : (natStr n).length = 4 := by
  simp only [natStr, natChars, show ¬ n = 0 by omega, if_false, String.length_mk,
    List.length_map, List.length_reverse]
  exact digitsRev_len4 n h1 h2 n (by omega)

theorem pad2_length (n : Nat) (h : n < 100) : (pad2 n).length = 2 := by
  by_cases h10 : n < 10
  · simp only [pad2, h10, if_true, String.length_append, natStr_length1 n h10]
    rfl
  · simp only [pad2, h10, if_false]
    exact natStr_length2 n (by omega) h

theorem traffic_generate_length (rng : Nat → ℚ) :
    (Traffic.generate_simulated_traffic_data rng).length = 225 := by
  simp only [Traffic.generate_simulated_traffic_data, List.length_flatMap, Function.comp_def,
    List.length_map, List.length_range, List.map_const', List.sum_replicate, smul_eq_mul]

theorem traffic_uniform_bounds (lo hi u : ℚ) (hlo : lo < hi) (h0 : 0 ≤ u) (h1 : u < 1) :
    lo ≤ Traffic.uniform lo hi u ∧ Traffic.uniform lo hi u < hi := by
  unfold Traffic.uniform
  constructor <;> nlinarith

theorem foldl_max_le (l : List ℚ) :
    ∀ a : ℚ, a ≤ l.foldl max a ∧ ∀ x ∈ l, x ≤ l.foldl max a := by
  induction l with
  | nil => intro a; simp
  | cons y ys ih =>
    intro a
    refine ⟨le_trans (le_max_left a y) (ih (max a y)).1, fun x hx => ?_⟩
    rcases List.mem_cons.mp hx with rfl | hx
    · exact le_trans (le_max_right a x) (ih (max a x)).1
    · exact (ih (max a y)).2 x hx

theorem listMax_ge (l : List ℚ) (x : ℚ) (hx : x ∈ l) : x ≤ Traffic.listMax l := by
  cases l with
  | nil => cases hx
  | cons y ys =>
    simp only [Traffic.listMax]
    rcases List.mem_cons.mp hx with rfl | hx
    · exact (foldl_max_le ys x).1
    · exact (foldl_max_le ys y).2 x hx

theorem listMean_le_listMax (l : List ℚ) (hl : l ≠ []) :
    Traffic.listMean l ≤ Traffic.listMax l := by
  have hlen : 0 < (l.length : ℚ) := by
    exact_mod_cast List.length_pos.mpr hl
  rw [Traffic.listMean, div_le_iff₀ hlen]
  calc l.sum ≤ l.length • Traffic.listMax l :=
        List.sum_le_card_nsmul l _ (fun x hx => listMax_ge l x hx)
    _ = Traffic.listMax l * l.length := by rw [nsmul_eq_mul]; ring

/-! ### C3: generator shape and value bounds -/

/-- C3: every run of the synthetic traffic generator yields exactly 225
records (15 × 15), with `jamFactor ∈ [0, 10]`, `confidence ∈ [0.5, 1]`,
`currentSpeed ∈ [10, 60]` and `freeFlowSpeed ∈ [40, 70]` in every record
(for draws in the unit interval, as `np.random.uniform` produces). -/
theorem traffic_generate_shape_and_bounds (rng : Nat → ℚ)
    (h : ∀ n, 0 ≤ rng n ∧ rng n < 1) :
    (Traffic.generate_simulated_traffic_data rng).length = 225 ∧
    ∀ r ∈ Traffic.generate_simulated_traffic_data rng,
      (0 ≤ r.jamFactor ∧ r.jamFactor ≤ 10) ∧
      (1/2 ≤ r.confidence ∧ r.confidence ≤ 1) ∧
      (10 ≤ r.currentSpeed ∧ r.currentSpeed ≤ 60) ∧
      (40 ≤ r.freeFlowSpeed ∧ r.freeFlowSpeed ≤ 70) := by
  refine ⟨traffic_generate_length rng, fun r hr => ?_⟩
  simp only [Traffic.generate_simulated_traffic_data, List.mem_flatMap, List.mem_map,
    List.mem_range] at hr
  obtain ⟨i, hi, j, hj, rfl⟩ := hr
  dsimp only
  refine ⟨⟨?_, ?_⟩, ⟨?_, ?_⟩, ⟨?_, ?_⟩, ?_, ?_⟩
  · exact (traffic_uniform_bounds 0 10 _ (by norm_num) (h _).1 (h _).2).1
  · exact le_of_lt (traffic_uniform_bounds 0 10 _ (by norm_num) (h _).1 (h _).2).2
  · exact (traffic_uniform_bounds (1/2) 1 _ (by norm_num) (h _).1 (h _).2).1
  · exact le_of_lt (traffic_uniform_bounds (1/2) 1 _ (by norm_num) (h _).1 (h _).2).2
  · exact (traffic_uniform_bounds 10 60 _ (by norm_num) (h _).1 (h _).2).1
  · exact le_of_lt (traffic_uniform_bounds 10 60 _ (by norm_num) (h _).1 (h _).2).2
  · exact (traffic_uniform_bounds 40 70 _ (by norm_num) (h _).1 (h _).2).1
  · exact le_of_lt (traffic_uniform_bounds 40 70 _ (by norm_num) (h _).1 (h _).2).2

/-- Witness for C3 at a concrete stream of draws. -/
theorem traffic_generate_shape_and_bounds_witness :
    (Traffic.generate_simulated_traffic_data (fun _ => 0)).length = 225 :=
  (traffic_generate_shape_and_bounds (fun _ => 0)
    (fun _ => ⟨le_refl 0, zero_lt_one⟩)).1

/-! ### C8: max jamFactor versus mean jamFactor -/

/-- C8: on every generated table the maximum jamFactor aggregate is at least
the mean jamFactor aggregate. -/
theorem traffic_max_ge_mean (rng : Nat → ℚ) :
    Traffic.avg_jam rng ≤ Traffic.max_jam rng := by
  unfold Traffic.avg_jam Traffic.max_jam
  apply listMean_le_listMax
  have hlen : (Traffic.jamFactors (Traffic.generate_simulated_traffic_data rng)).length = 225 := by
    simp [Traffic.jamFactors, traffic_generate_length rng]
  intro hcon
  rw [hcon] at hlen
  simp at hlen

/-- Witness for C8 at a concrete stream of draws. -/
theorem traffic_max_ge_mean_witness :
    Traffic.avg_jam (fun _ => 0) ≤ Traffic.max_jam (fun _ => 0) :=
  traffic_max_ge_mean (fun _ => 0)

theorem notFound_ne_transport (a m : String) :
    Wiki.notFoundMsg a ≠ Wiki.transportMsg m := by
  intro h
  have h2 := congrArg (fun s => s.data.take 2) h
  simp only [Wiki.notFoundMsg, Wiki.transportMsg, String.data_append, List.append_assoc] at h2
  rw [List.take_append_of_le_length (by decide), List.take_append_of_le_length (by decide)] at h2
  exact absurd h2 (by decide)

/-! ### C7: HTTP 404 yields the article-specific not-found path -/

/-- C7: a delivered 404 makes `fetch_wikipedia_pageviews` emit its explicit
article-not-found message (naming the article) and return `None`; that
message differs from every generic transport-error message, and in the view
no chart is shown while the not-found message is among the errors. -/
theorem wiki_404_not_found (article errText : String) (body : Wiki.HttpBody) :
    Wiki.fetch_wikipedia_pageviews article (.response 404 errText body) =
      { errors := [Wiki.notFoundMsg article], result := none } ∧
    (∀ m, Wiki.notFoundMsg article ≠ Wiki.transportMsg m) ∧
    ∀ (input : String) (s e : Wiki.Date), input ≠ "" → Wiki.dateLtB e s = false →
      (Wiki.display_wikipedia_analytics input s e (.response 404 errText body)).chartShown =
        false ∧
      Wiki.notFoundMsg (Wiki.deriveTitle input) ∈
        (Wiki.display_wikipedia_analytics input s e (.response 404 errText body)).errors := by
  refine ⟨by simp [Wiki.fetch_wikipedia_pageviews], fun m => notFound_ne_transport article m, ?_⟩
  intro input s e hin hd
  simp [Wiki.display_wikipedia_analytics, hin, hd, Wiki.fetch_wikipedia_pageviews]

/-- Witness for C7 at a concrete 404 response. -/
theorem wiki_404_not_found_witness :
    (Wiki.display_wikipedia_analytics "Streamlit" ⟨2024, 5, 1⟩ ⟨2024, 5, 2⟩
        (.response 404 "404 Client Error" .noItems)).chartShown = false :=
  ((wiki_404_not_found "Streamlit" "404 Client Error" .noItems).2.2
    "Streamlit" ⟨2024, 5, 1⟩ ⟨2024, 5, 2⟩ (by decide) (by decide)).1

/-! ### C9: request-URL construction and title round-trip -/

theorem strftimeYmd_length (d : Wiki.Date) (h1 : 1000 ≤ d.year) (h2 : d.year ≤ 9999)
    (h3 : d.month ≤ 99) (h4 : d.day ≤ 99) : (Wiki.strftimeYmd d).length = 8 := by
  simp only [Wiki.strftimeYmd, String.length_append, natStr_length4 d.year h1 (by omega),
    pad2_length d.month (by omega), pad2_length d.day (by omega)]

theorem replace_roundtrip_chars (l : List Char) (hw : ∀ c ∈ l, c ≠ ' ') :
    (l.map (fun c => if c = '_' then ' ' else c)).map (fun c => if c = ' ' then '_' else c) =
      l := by
  induction l with
  | nil => rfl
  | cons c rest ih =>
    have hc : c ≠ ' ' := hw c (List.mem_cons_self c rest)
    have hrest := ih (fun x hx => hw x (List.mem_cons_of_mem c hx))
    by_cases hu : c = '_' <;> simp [hu, hc, hrest]

/-- C9: the request URL is the fixed base, the article with every space
replaced by an underscore, and both dates as 8-character `YYYYMMDD` strings
(for four-digit years); the underscored article contains no space, and the
underscore-to-space normalization round-trips back to the underscore form
for any space-free segment. -/
theorem wiki_fetch_url_format (article : String) (s e : Wiki.Date)
    (hs1 : 1000 ≤ s.year) (hs2 : s.year ≤ 9999) (hs3 : s.month ≤ 99) (hs4 : s.day ≤ 99)
    (he1 : 1000 ≤ e.year) (he2 : e.year ≤ 9999) (he3 : e.month ≤ 99) (he4 : e.day ≤ 99) :
    Wiki.fetch_url article s e =
      Wiki.wikiBase ++ Wiki.pyReplaceChar article ' ' '_' ++ "/daily/" ++
        Wiki.strftimeYmd s ++ "/" ++ Wiki.strftimeYmd e ∧
    (Wiki.strftimeYmd s).length = 8 ∧ (Wiki.strftimeYmd e).length = 8 ∧
    (∀ c ∈ (Wiki.pyReplaceChar article ' ' '_').data, c ≠ ' ') ∧
    ∀ w : String, (∀ c ∈ w.data, c ≠ ' ') →
      Wiki.pyReplaceChar (Wiki.pyReplaceChar w '_' ' ') ' ' '_' = w := by
  refine ⟨rfl, strftimeYmd_length s hs1 hs2 hs3 hs4, strftimeYmd_length e he1 he2 he3 he4,
    ?_, ?_⟩
  · intro c hc
    simp only [Wiki.pyReplaceChar, String.toList, List.mem_map] at hc
    obtain ⟨x, _, rfl⟩ := hc
    by_cases hx : x = ' ' <;> simp [hx]
  · intro w hw
    apply String.ext
    simpa [Wiki.pyReplaceChar, String.toList] using replace_roundtrip_chars w.data hw

/-- Witness for C9 at a concrete article and date pair. -/
theorem wiki_fetch_url_format_witness :
    (Wiki.strftimeYmd ⟨2024, 1, 2⟩).length = 8 :=
  (wiki_fetch_url_format "New York" ⟨2024, 1, 2⟩ ⟨2024, 12, 31⟩ (by decide) (by decide)
    (by decide) (by decide) (by decide) (by decide) (by decide) (by decide)).2.1

/-! ### C1: rendering of absent KPI fields -/

/-- C1 counterexample: with every field absent, the Monthly Visits tile
shows `0`, not `N/A`, and the Global Rank tile raises a `ValueError`
instead of showing anything. -/
theorem seo_absent_kpi_fields_cex :
    Seo.visitsTile Seo.emptyMetrics = "0" ∧
    Seo.visitsTile Seo.emptyMetrics ≠ "N/A" ∧
    Seo.globalRankTile Seo.emptyMetrics = .error Seo.commaValueError := by
  decide

/-- C1 (amended): only the Bounce Rate and Avg. Session tiles fall back to
`N/A` when their field is absent; an absent `visits` renders as `0` (the
coded default), and an absent `global_rank` raises the comma-format
`ValueError`, aborting the whole success branch. -/
theorem seo_absent_kpi_fields_rendering (m : Seo.SeoMetrics) :
    (m.bounce_rate = none → Seo.bounceRateTile m = "N/A") ∧
    (m.avg_session_duration = none → Seo.avgSessionTile m = "N/A") ∧
    (m.visits = none → Seo.visitsTile m = "0") ∧
    (m.global_rank = none → Seo.globalRankTile m = .error Seo.commaValueError ∧
      Seo.renderSuccess m = .error Seo.commaValueError) := by
  refine ⟨fun h => ?_, fun h => ?_, fun h => ?_, fun h => ⟨?_, ?_⟩⟩
  · simp [Seo.bounceRateTile, h]
  · simp [Seo.avgSessionTile, h]
  · simp only [Seo.visitsTile, h, Option.getD_none]
    decide
  · simp [Seo.globalRankTile, h]
  · simp [Seo.renderSuccess, Seo.globalRankTile, h]

/-- Witness for the amended C1 at the all-absent metrics mapping. -/
theorem seo_absent_kpi_fields_rendering_witness :
    Seo.bounceRateTile Seo.emptyMetrics = "N/A" ∧
    Seo.renderSuccess Seo.emptyMetrics = .error Seo.commaValueError :=
  ⟨(seo_absent_kpi_fields_rendering Seo.emptyMetrics).1 rfl,
    ((seo_absent_kpi_fields_rendering Seo.emptyMetrics).2.2.2 rfl).2⟩

/-! ### C2: surfacing of the API error message -/

/-- C2 counterexample: a `success: false` response with message
`Invalid key` surfaces `API error: Invalid key`, not exactly the message
`Invalid key`. -/
theorem seo_api_error_message_cex :
    Seo.display_website_seo_analytics "key" "streamlit.io"
        (some [("success", .jbool false), ("message", .jstr "Invalid key")]) =
      .apiError "API error: Invalid key" ∧
    Seo.display_website_seo_analytics "key" "streamlit.io"
        (some [("success", .jbool false), ("message", .jstr "Invalid key")]) ≠
      .apiError "Invalid key" := by
  decide

/-- C2 (amended): for every response carrying `success: false`, the view
surfaces the error path with the text `API error: ` followed by the
response's message verbatim (or by `Unknown error` when the message key is
absent); the generic failure branch is never taken for such a response. -/
theorem seo_api_error_message (key dom : String) (d : Seo.SeoDict)
    (hk : key ≠ "") (hd : dom ≠ "")
    (hs : List.lookup "success" d = some (.jbool false)) :
    Seo.display_website_seo_analytics key dom (some d) =
      .apiError ("API error: " ++
        Seo.jsonToStr (Seo.dictGet d "message" (.jstr "Unknown error"))) ∧
    (∀ msg, List.lookup "message" d = some (.jstr msg) →
      Seo.display_website_seo_analytics key dom (some d) =
        .apiError ("API error: " ++ msg)) ∧
    (List.lookup "message" d = none →
      Seo.display_website_seo_analytics key dom (some d) =
        .apiError "API error: Unknown error") := by
  have hne : d ≠ [] := by rintro rfl; simp [List.lookup] at hs
  obtain ⟨p, t, rfl⟩ := List.exists_cons_of_ne_nil hne
  refine ⟨?_, fun msg hmsg => ?_, fun hnone => ?_⟩
  · simp [Seo.display_website_seo_analytics, hk, hd, Seo.dictGet, hs, Seo.pyTruthy]
  · simp [Seo.display_website_seo_analytics, hk, hd, Seo.dictGet, hs, hmsg, Seo.pyTruthy,
      Seo.jsonToStr]
  · simp [Seo.display_website_seo_analytics, hk, hd, Seo.dictGet, hs, hnone, Seo.pyTruthy,
      Seo.jsonToStr]

/-- Witness for the amended C2 on a response without a message key. -/
theorem seo_api_error_message_witness :
    Seo.display_website_seo_analytics "k" "streamlit.io"
        (some [("success", Seo.JsonTop.jbool false)]) =
      .apiError "API error: Unknown error" :=
  (seo_api_error_message "k" "streamlit.io" [("success", .jbool false)]
    (by decide) (by decide) (by decide)).2.2 (by decide)

/-! ### C10: response without a success key -/

/-- C10 counterexample: the empty JSON object is a non-null response without
a `success` key, yet it takes the generic failure branch, not the error
message path. -/
theorem seo_missing_success_key_cex :
    Seo.display_website_seo_analytics "key" "streamlit.io" (some []) =
      .fetchFailed "Failed to retrieve data. Check API key and domain." ∧
    Seo.display_website_seo_analytics "key" "streamlit.io" (some []) ≠
      .apiError "API error: Unknown error" := by
  decide

/-- C10 (amended): a non-null response lacking a `success` key never takes
the success branch; when the response object is non-empty (truthy) the
message path is surfaced as for `success: false`, but the empty object falls
through to the generic failure branch. -/
theorem seo_missing_success_key (key dom : String) (d : Seo.SeoDict)
    (hk : key ≠ "") (hd : dom ≠ "") (hs : List.lookup "success" d = none) :
    (d ≠ [] → Seo.display_website_seo_analytics key dom (some d) =
      .apiError ("API error: " ++
        Seo.jsonToStr (Seo.dictGet d "message" (.jstr "Unknown error")))) ∧
    (d = [] → Seo.display_website_seo_analytics key dom (some d) =
      .fetchFailed "Failed to retrieve data. Check API key and domain.") := by
  constructor
  · intro hne
    obtain ⟨p, t, rfl⟩ := List.exists_cons_of_ne_nil hne
    simp [Seo.display_website_seo_analytics, hk, hd, Seo.dictGet, hs, Seo.pyTruthy]
  · rintro rfl
    simp [Seo.display_website_seo_analytics, hk, hd]

/-- Witness for the amended C10 on a truthy response without a success
key. -/
theorem seo_missing_success_key_witness :
    Seo.display_website_seo_analytics "k" "streamlit.io"
        (some [("message", Seo.JsonTop.jstr "oops")]) =
      .apiError ("API error: " ++
        Seo.jsonToStr (Seo.dictGet [("message", Seo.JsonTop.jstr "oops")] "message"
          (.jstr "Unknown error"))) :=
  (seo_missing_success_key "k" "streamlit.io" [("message", .jstr "oops")]
    (by decide) (by decide) (by decide)).1 (by decide)

/-! ### C4: session-duration formatting -/

/-- C4: in the SEO view an average session duration of 125 seconds renders as
the string `2m 5s` (seconds split by division by 60), and a missing average
session duration renders as `N/A`. -/
theorem seo_session_duration_format :
    Seo.avgSessionTile { Seo.emptyMetrics with avg_session_duration := some 125 } = "2m 5s" ∧
    ∀ m : Seo.SeoMetrics, m.avg_session_duration = none → Seo.avgSessionTile m = "N/A" := by
  constructor
  · decide
  · intro m hm
    simp [Seo.avgSessionTile, hm]

/-- Witness for C4 at a concrete metrics mapping with the field absent. -/
theorem seo_session_duration_format_witness :
    Seo.avgSessionTile Seo.emptyMetrics = "N/A" :=
  seo_session_duration_format.2 Seo.emptyMetrics rfl

/-! ### C5: URL-to-title normalization -/

/-- C5: for any input containing the marker `en.wikipedia.org/wiki/`, the
Wikipedia view derives the title by taking the last `/`-separated segment,
percent-decoding it, and replacing underscores with spaces; on
`https://en.wikipedia.org/wiki/Streamlit_(company)` this yields
`Streamlit (company)`. -/
theorem wiki_url_to_title :
    (∀ s : String, Wiki.strContains s Wiki.wikiMarker = true →
        Wiki.deriveTitle s =
          Wiki.pyReplaceChar (Wiki.pyUnquote (Wiki.lastSegment s)) '_' ' ') ∧
    Wiki.deriveTitle "https://en.wikipedia.org/wiki/Streamlit_(company)" =
      "Streamlit (company)" := by
  refine ⟨fun s h => ?_, by decide⟩
  simp [Wiki.deriveTitle, h]

/-- Witness for C5: the marker test holds on a concrete URL and the theorem
applies to it. -/
theorem wiki_url_to_title_witness :
    Wiki.strContains "https://en.wikipedia.org/wiki/New_York_City" Wiki.wikiMarker = true ∧
    Wiki.deriveTitle "https://en.wikipedia.org/wiki/New_York_City" =
      Wiki.pyReplaceChar
        (Wiki.pyUnquote (Wiki.lastSegment "https://en.wikipedia.org/wiki/New_York_City")) '_' ' ' :=
  ⟨by decide, wiki_url_to_title.1 "https://en.wikipedia.org/wiki/New_York_City" (by decide)⟩

/-! ### C6: start date after end date -/

/-- C6: whenever the start date is strictly after the end date, the Wikipedia
view issues no fetch (hence no network call) and produces a warning. -/
theorem wiki_date_order_guard (input : String) (s e : Wiki.Date) (http : Wiki.HttpResult)
    (h : Wiki.dateLtB e s = true) :
    (Wiki.display_wikipedia_analytics input s e http).fetchCalled = false ∧
    (Wiki.display_wikipedia_analytics input s e http).warnings ≠ [] := by
  by_cases hin : input = "" <;>
    simp [Wiki.display_wikipedia_analytics, hin, h]

/-- Witness for C6 at concrete inputs with the start date after the end
date. -/
theorem wiki_date_order_guard_witness :
    Wiki.dateLtB ⟨2024, 5, 1⟩ ⟨2024, 5, 2⟩ = true ∧
    (Wiki.display_wikipedia_analytics "Streamlit" ⟨2024, 5, 2⟩ ⟨2024, 5, 1⟩
        (.netError "unreachable")).fetchCalled = false :=
  ⟨by decide,
    (wiki_date_order_guard "Streamlit" ⟨2024, 5, 2⟩ ⟨2024, 5, 1⟩
      (.netError "unreachable") (by decide)).1⟩
